import Mathlib

/-!
Verification of the trace-context propagation and telemetry-recording logic of
the otel-playground repository (cmd/user/main.go, cmd/post/main.go, main.go).

The W3C trace-context propagator, span creation and exemplar attachment are
performed by the OpenTelemetry SDK that the services configure; those layers
are modelled from the spec (sections 3, 4.1, 4.2, 4.3 and 6), as marked on the
individual definitions.  The HTTP handlers, the database access functions and
the outbound client wrappers are translated from the Go source directly.
-/

/-- A W3C trace context: 128-bit trace id, 64-bit span id, 8-bit flags
(spec section 3). -/
structure TraceContext where
  traceId : Nat
  spanId : Nat
  flags : Nat
deriving DecidableEq

/-- Validity invariant of a trace context: trace id and span id are both
non-zero (spec section 3). -/
def TraceContext.isValid (c : TraceContext) : Bool :=
  c.traceId != 0 && c.spanId != 0

/-- Field bounds of a trace context: 128-bit trace id, 64-bit span id,
8-bit flags. -/
def TraceContext.bounded (c : TraceContext) : Prop :=
  c.traceId < 2 ^ 128 ∧ c.spanId < 2 ^ 64 ∧ c.flags < 2 ^ 8

/-- Lower-case hex digit for a value below 16. -/
def hexDigit (n : Nat) : Char :=
  if n < 10 then Char.ofNat (48 + n) else Char.ofNat (87 + n)

/-- Value of a lower-case hex digit character, `none` for a non-hex
character. -/
def hexVal? (c : Char) : Option Nat :=
  if 48 ≤ c.toNat ∧ c.toNat ≤ 57 then some (c.toNat - 48)
  else if 97 ≤ c.toNat ∧ c.toNat ≤ 102 then some (c.toNat - 87)
  else none

/-- Fixed-width lower-case hex rendering of `n`, most significant digit
first, prepended to `acc`. -/
def toHexChars : Nat → Nat → List Char → List Char
  | _, 0, acc => acc
  | n, len + 1, acc => toHexChars (n / 16) len (hexDigit (n % 16) :: acc)

/-- Hex parsing of a character list, accumulating into `acc`; fails on the
first non-hex character. -/
def fromHexChars? : List Char → Nat → Option Nat
  | [], acc => some acc
  | c :: cs, acc =>
    match hexVal? c with
    | some v => fromHexChars? cs (acc * 16 + v)
    | none => none

theorem toHexChars_acc (len : Nat) :
    ∀ n rest, toHexChars n len rest = toHexChars n len [] ++ rest := by
  induction len with
  | zero => intro n rest; simp [toHexChars]
  | succ k ih =>
    intro n rest
    simp only [toHexChars]
    rw [ih (n / 16) (hexDigit (n % 16) :: rest), ih (n / 16) [hexDigit (n % 16)]]
    simp

theorem toHexChars_length (len : Nat) :
    ∀ n rest, (toHexChars n len rest).length = len + rest.length := by
  induction len with
  | zero => intro n rest; simp [toHexChars]
  | succ k ih =>
    intro n rest
    simp only [toHexChars]
    rw [ih]
    simp only [List.length_cons]
    omega

theorem hexDigit_ne_dash : ∀ m, m < 16 → hexDigit m ≠ '-' := by decide

theorem hexVal_hexDigit : ∀ m, m < 16 → hexVal? (hexDigit m) = some m := by decide

theorem toHexChars_no_dash (len : Nat) :
    ∀ n c, c ∈ toHexChars n len [] → c ≠ '-' := by
  induction len with
  | zero => intro n c h; simp [toHexChars] at h
  | succ k ih =>
    intro n c h
    simp only [toHexChars] at h
    rw [toHexChars_acc] at h
    rcases List.mem_append.mp h with h1 | h2
    · exact ih _ _ h1
    · simp only [List.mem_singleton] at h2
      subst h2
      exact hexDigit_ne_dash _ (Nat.mod_lt _ (by norm_num))

theorem fromHex_toHex (len : Nat) :
    ∀ n rest a, n < 16 ^ len →
      fromHexChars? (toHexChars n len rest) a = fromHexChars? rest (a * 16 ^ len + n) := by
  induction len with
  | zero =>
    intro n rest a hn
    have hn0 : n = 0 := by omega
    subst hn0
    simp [toHexChars]
  | succ k ih =>
    intro n rest a hn
    simp only [toHexChars]
    have hdiv : n / 16 < 16 ^ k := by
      rw [Nat.div_lt_iff_lt_mul (by norm_num)]
      calc n < 16 ^ (k + 1) := hn
        _ = 16 ^ k * 16 := by rw [pow_succ]
    rw [ih (n / 16) _ a hdiv]
    simp only [fromHexChars?]
    rw [hexVal_hexDigit _ (Nat.mod_lt _ (by norm_num))]
    have harith : (a * 16 ^ k + n / 16) * 16 + n % 16 = a * 16 ^ (k + 1) + n := by
      rw [pow_succ]
      have := Nat.div_add_mod n 16
      ring_nf
      omega
    show fromHexChars? rest ((a * 16 ^ k + n / 16) * 16 + n % 16) =
      fromHexChars? rest (a * 16 ^ (k + 1) + n)
    rw [harith]

theorem fromHex_toHex0 (len n : Nat) (hn : n < 16 ^ len) :
    fromHexChars? (toHexChars n len []) 0 = some n := by
  rw [fromHex_toHex len n [] 0 hn]
  simp [fromHexChars?]

/-- Split a character list at every dash, the separator of the traceparent
wire layout (spec section 6). -/
def splitDash : List Char → List (List Char)
  | [] => [[]]
  | c :: cs =>
    if c = '-' then [] :: splitDash cs
    else
      match splitDash cs with
      | [] => [[c]]
      | f :: rest => (c :: f) :: rest

theorem splitDash_dashfree : ∀ l, (∀ c ∈ l, c ≠ '-') → splitDash l = [l] := by
  intro l
  induction l with
  | nil => intro _; rfl
  | cons c cs ih =>
    intro h
    have hc : c ≠ '-' := h c (by simp)
    have hcs := ih (fun x hx => h x (by simp [hx]))
    simp [splitDash, if_neg hc, hcs]

theorem splitDash_append :
    ∀ a t, (∀ c ∈ a, c ≠ '-') → splitDash (a ++ '-' :: t) = a :: splitDash t := by
  intro a
  induction a with
  | nil => intro t _; simp [splitDash]
  | cons c cs ih =>
    intro t h
    have hc : c ≠ '-' := h c (by simp)
    have hcs := ih t (fun x hx => h x (by simp [hx]))
    simp [List.cons_append, splitDash, if_neg hc, hcs]

/-- A carrier: a header-like mapping from keys to character-list values
(spec section 3). -/
abbrev Carrier := List (String × List Char)

/-- Set a carrier entry, overwriting any prior value for the key. -/
def setValue (k : String) (v : List Char) (carrier : Carrier) : Carrier :=
  (k, v) :: carrier.filter (fun p => !(p.fst == k))

/-- Read a carrier entry. -/
def getValue? (k : String) (carrier : Carrier) : Option (List Char) :=
  match carrier.find? (fun p => p.fst == k) with
  | some p => some p.snd
  | none => none

theorem getValue_setValue (k : String) (v : List Char) (carrier : Carrier) :
    getValue? k (setValue k v carrier) = some v := by
  simp [getValue?, setValue, List.find?]

/-- The traceparent value of a context in the fixed wire layout
`version-traceid-spanid-flags` (spec section 6). -/
def traceparentChars (c : TraceContext) : List Char :=
  toHexChars 0 2 ('-' ::
    toHexChars c.traceId 32 ('-' ::
      toHexChars c.spanId 16 ('-' ::
        toHexChars c.flags 2 [])))

/-- Modelled from the spec: `inject` of the W3C trace-context propagator
configured in `initTracer` (the propagator implementation is not under src).
It formats the four fields into the fixed layout and sets exactly one carrier
entry, overwriting any prior value; an invalid context is not written
(spec section 4.1). -/
def inject (c : TraceContext) (carrier : Carrier) : Carrier :=
  if c.isValid then setValue "traceparent" (traceparentChars c) carrier
  else carrier

/-- Modelled from the spec: the parser behind `extract` of the W3C
trace-context propagator (not under src).  Fails on wrong field count,
wrong field width, non-hex characters, an all-zero trace id or an all-zero
span id (spec section 4.1). -/
def parseTraceparent (v : List Char) : Option TraceContext :=
  match splitDash v with
  | [ver, tid, sid, fl] =>
    if ver.length = 2 ∧ tid.length = 32 ∧ sid.length = 16 ∧ fl.length = 2 then
      match fromHexChars? ver 0, fromHexChars? tid 0,
            fromHexChars? sid 0, fromHexChars? fl 0 with
      | some _, some t, some s, some f =>
        if t ≠ 0 ∧ s ≠ 0 then some ⟨t, s, f⟩ else none
      | _, _, _, _ => none
    else none
  | _ => none

/-- Modelled from the spec: `extract` of the W3C trace-context propagator
(not under src).  Returns `none` (Invalid) rather than failing on a missing
or malformed entry (spec section 4.1). -/
def extract (carrier : Carrier) : Option TraceContext :=
  match getValue? "traceparent" carrier with
  | some v => parseTraceparent v
  | none => none

theorem extract_inject (c : TraceContext) (carrier : Carrier)
    (hb : c.bounded) (ht : c.traceId ≠ 0) (hs : c.spanId ≠ 0) :
    extract (inject c carrier) = some c := by
  obtain ⟨t, s, f⟩ := c
  obtain ⟨hbt, hbs, hbf⟩ := hb
  have hv : TraceContext.isValid ⟨t, s, f⟩ = true := by
    simp [TraceContext.isValid]
    exact ⟨ht, hs⟩
  have hsplit : splitDash (traceparentChars ⟨t, s, f⟩) =
      [toHexChars 0 2 [], toHexChars t 32 [], toHexChars s 16 [], toHexChars f 2 []] := by
    simp only [traceparentChars]
    rw [toHexChars_acc 2 0, toHexChars_acc 32 t, toHexChars_acc 16 s]
    rw [splitDash_append _ _ (toHexChars_no_dash 2 0),
        splitDash_append _ _ (toHexChars_no_dash 32 t),
        splitDash_append _ _ (toHexChars_no_dash 16 s),
        splitDash_dashfree _ (toHexChars_no_dash 2 f)]
  have l0 : (toHexChars 0 2 ([] : List Char)).length = 2 := by
    rw [toHexChars_length]; rfl
  have l1 : (toHexChars t 32 ([] : List Char)).length = 32 := by
    rw [toHexChars_length]; rfl
  have l2 : (toHexChars s 16 ([] : List Char)).length = 16 := by
    rw [toHexChars_length]; rfl
  have l3 : (toHexChars f 2 ([] : List Char)).length = 2 := by
    rw [toHexChars_length]; rfl
  have f0 : fromHexChars? (toHexChars 0 2 []) 0 = some 0 :=
    fromHex_toHex0 2 0 (by norm_num)
  have f1 : fromHexChars? (toHexChars t 32 []) 0 = some t :=
    fromHex_toHex0 32 t (by calc t < 2 ^ 128 := hbt
      _ = 16 ^ 32 := by norm_num)
  have f2 : fromHexChars? (toHexChars s 16 []) 0 = some s :=
    fromHex_toHex0 16 s (by calc s < 2 ^ 64 := hbs
      _ = 16 ^ 16 := by norm_num)
  have f3 : fromHexChars? (toHexChars f 2 []) 0 = some f :=
    fromHex_toHex0 2 f (by calc f < 2 ^ 8 := hbf
      _ ≤ 16 ^ 2 := by norm_num)
  simp only [inject, hv, if_true, extract, getValue_setValue, parseTraceparent,
    hsplit, l0, l1, l2, l3, f0, f1, f2, f3]
  simp [ht, hs]

/-- Recorded span attributes: the continue-or-root decision of the span
lifecycle layer yields a span with a trace id, its own span id, and an
optional parent span id. -/
structure SpanData where
  traceId : Nat
  spanId : Nat
  parent : Option Nat
deriving DecidableEq

/-- The trace-related content of a Go `context.Context`: the span context it
carries, if any, and whether the span carrying it is a recording span.  A
context produced by `Extract` carries a remote, non-recording span; a context
produced by `tracer.Start` carries a recording one. -/
structure Ctx where
  span : Option TraceContext
  recording : Bool
deriving DecidableEq

/-- A request context that carries no span at all. -/
def Ctx.noSpan : Ctx := { span := none, recording := false }

/-- `oteltrace.SpanContextFromContext(ctx).IsValid()`. -/
def Ctx.spanCtxValid (ctx : Ctx) : Bool :=
  match ctx.span with
  | some c => c.isValid
  | none => false

/-- `otel.GetTextMapPropagator().Extract(r.Context(), carrier)`: on a parsable
traceparent entry the context now carries the remote (non-recording) span
context; otherwise the incoming context is returned unchanged. -/
def extractInto (base : Ctx) (carrier : Carrier) : Ctx :=
  match extract carrier with
  | some c => { span := some c, recording := false }
  | none => base

/-- `otel.GetTextMapPropagator().Inject(ctx, carrier)`: writes the active span
context into the carrier; a context whose span context is invalid is not
written. -/
def injectCtx (ctx : Ctx) (carrier : Carrier) : Carrier :=
  match ctx.span with
  | some c => if c.isValid then inject c carrier else carrier
  | none => carrier

/-- Modelled from the spec: the metrics SDK (not under src) attaches the
active trace id to a sample as its exemplar iff a valid trace context is
active at record time; otherwise the sample carries no exemplar
(spec sections 4.3 and 8). -/
def exemplarOf (ctx : Ctx) : Option Nat :=
  match ctx.span with
  | some c => if c.isValid then some c.traceId else none
  | none => none

/-- Modelled from the spec: `tracer.Start` of the OpenTelemetry SDK (not
under src) on a context with no valid span context creates a root span with
freshly generated trace and span ids, no parent, sampled and recording
(spec section 4.2). -/
def startRootSpan (ftid fsid : Nat) : SpanData × Ctx :=
  (⟨ftid, fsid, none⟩, { span := some ⟨ftid, fsid, 1⟩, recording := true })

/-- Modelled from the spec: the continue-or-root decision of the span
lifecycle layer (spec section 4.2).  For a valid extracted context the hop
span keeps the trace id, takes the extracted span id as parent, and gets a
freshly synthesized span id; the hop span for a valid context is created by
the HTTP instrumentation wrapper, which is not under src, while for an
invalid context the handlers start the root span themselves. -/
def hopSpan (ectx : Option TraceContext) (ftid fsid : Nat) : SpanData :=
  match ectx with
  | some c => if c.isValid then ⟨c.traceId, fsid, some c.spanId⟩ else ⟨ftid, fsid, none⟩
  | none => ⟨ftid, fsid, none⟩

/-- One telemetry event emitted while handling a request. -/
inductive TEvent where
  | inflight (delta : Int)
  | spanStart (s : SpanData)
  | spanEnd (s : SpanData)
  | recordErr (desc : String)
  | setAttrs (attrs : List (String × String))
  | counterAdd (name : String) (exemplar : Option Nat) (attrs : List (String × String))
  | histRecord (name : String) (exemplar : Option Nat) (attrs : List (String × String))
deriving DecidableEq

/-- The `activeConnections.Add(ctx, 1)` at handler entry and the deferred
`activeConnections.Add(ctx, -1)` that runs on every exit path. -/
def wrapInflight (mid : List TEvent) : List TEvent :=
  TEvent.inflight 1 :: mid ++ [TEvent.inflight (-1)]

/-- The root span started by a handler when the extracted context is invalid
(`tracer.Start` with a deferred `span.End()`), `none` when the extracted
context is valid. -/
def rootSpanOf (base : Ctx) (ftid fsid : Nat) (carrier : Carrier) : Option SpanData :=
  if (extractInto base carrier).spanCtxValid then none
  else some (startRootSpan ftid fsid).fst

/-- The context a handler works under after the extract / continue-or-root
steps. -/
def activeCtx (base : Ctx) (ftid fsid : Nat) (carrier : Carrier) : Ctx :=
  if (extractInto base carrier).spanCtxValid then extractInto base carrier
  else (startRootSpan ftid fsid).snd

/-- Decimal value of a digit list, `none` on any non-digit character. -/
def digitsVal? : List Char → Nat → Option Nat
  | [], acc => some acc
  | c :: cs, acc =>
    if 48 ≤ c.toNat ∧ c.toNat ≤ 57 then digitsVal? cs (acc * 10 + (c.toNat - 48))
    else none

/-- `strconv.Atoi`: decimal parse with an optional sign, failing on an empty
string or any non-digit character. -/
def atoi? (s : String) : Option Int :=
  match s.data with
  | [] => none
  | '-' :: rest =>
    match rest with
    | [] => none
    | _ => (digitsVal? rest 0).map (fun n => -(n : Int))
  | '+' :: rest =>
    match rest with
    | [] => none
    | _ => (digitsVal? rest 0).map (fun n => (n : Int))
  | l => (digitsVal? l 0).map (fun n => (n : Int))

/-- Outcome of the single-row database lookup (`row.Scan`): a row, no row
(`sql.ErrNoRows`), or another database error. -/
inductive Lookup where
  | found
  | notFound
  | dbError
deriving DecidableEq

/-- Input of `getUserHandler` / `getPostHandler`: the request headers, the
method, the raw `id` query parameter, the database outcome, and whether
writing the JSON response succeeds. -/
structure GetReq where
  carrier : Carrier
  method : String
  idParam : Option String
  lookup : Lookup
  encodeOk : Bool
deriving DecidableEq

/-- Result of running a handler: HTTP status, ordered telemetry events, and
the response headers. -/
structure HResult where
  status : Nat
  events : List TEvent
  respCarrier : Carrier
deriving DecidableEq

namespace UserService

/-- Status, span events and success flag of the body of
`UserService.getUserHandler` (cmd/user/main.go): parameter validation, the
`getUser` lookup (whose `row.Scan` failure records an error via the shared
`recordError` helper when a recording span is active), the handler-level
error recording that distinguishes `sql.ErrNoRows`, and the final encode. -/
def bodyOutcome (ctx : Ctx) (req : GetReq) : Nat × List TEvent × Bool :=
  match req.idParam with
  | none => (400, [], false)
  | some s =>
    match atoi? s with
    | none => (400, [], false)
    | some _ =>
      match req.lookup with
      | Lookup.notFound =>
        (404,
         (if ctx.recording then
            [TEvent.recordErr "Failed to scan user data",
             TEvent.recordErr "User not found"]
          else []),
         false)
      | Lookup.dbError =>
        (500,
         (if ctx.recording then
            [TEvent.recordErr "Failed to scan user data",
             TEvent.recordErr "Failed to get user"]
          else []),
         false)
      | Lookup.found => ((if req.encodeOk then 200 else 500), [], true)

/-- `UserService.getUserHandler` (cmd/user/main.go): in-flight up/down,
extract, start a root span iff the extracted context is invalid, deferred
request-count and duration metrics tagged with method and route, parameter
validation, lookup, error recording, response injection.  Deferred calls run
in last-in first-out order, so the metrics record before the root span ends
and the in-flight decrement runs last. -/
def getUserHandler (base : Ctx) (ftid fsid : Nat) (req : GetReq) : HResult :=
  let root := rootSpanOf base ftid fsid req.carrier
  let ctx := activeCtx base ftid fsid req.carrier
  let out := bodyOutcome ctx req
  let attrs := [("http.request.method", req.method), ("http.route", "/users")]
  { status := out.fst,
    events := wrapInflight
      ((match root with
        | some sp => [TEvent.spanStart sp]
        | none => [])
       ++ out.snd.fst
       ++ [TEvent.counterAdd "user_service_requests_total" (exemplarOf ctx) attrs,
           TEvent.histRecord "user_service_request_duration_seconds" (exemplarOf ctx) attrs]
       ++ (match root with
           | some sp => [TEvent.spanEnd sp]
           | none => [])),
    respCarrier := if out.snd.snd then injectCtx ctx [] else [] }

/-- `UserService.healthHandler` (cmd/user/main.go): no extract, no span; the
metrics record against the raw request context. -/
def healthHandler (base : Ctx) (method : String) : HResult :=
  let attrs := [("http.request.method", method), ("http.route", "/health")]
  { status := 200,
    events := wrapInflight
      [TEvent.counterAdd "user_service_requests_total" (exemplarOf base) attrs,
       TEvent.histRecord "user_service_request_duration_seconds" (exemplarOf base) attrs],
    respCarrier := [] }

/-- `UserService.errorHandler` (cmd/user/main.go): extract (no root span
fallback), record the intentional error and structured attributes onto the
active span when it is recording, deferred metrics (the counter also carries
the status-code attribute), deferred response injection, respond 500. -/
def errorHandler (base : Ctx) (carrier : Carrier) (method : String) : HResult :=
  let ctx := extractInto base carrier
  let attrsC := [("http.request.method", method), ("http.route", "/error"),
                 ("http.response.status_code", "500")]
  let attrsH := [("http.request.method", method), ("http.route", "/error")]
  { status := 500,
    events := wrapInflight
      ((if ctx.recording then
          [TEvent.recordErr "Intentional test error",
           TEvent.setAttrs [("http.response.status_code", "500"),
                            ("error.type", "test_error")]]
        else [])
       ++ [TEvent.counterAdd "user_service_requests_total" (exemplarOf ctx) attrsC,
           TEvent.histRecord "user_service_request_duration_seconds" (exemplarOf ctx) attrsH]),
    respCarrier := injectCtx ctx [] }

end UserService

/-- A post row (cmd/post/main.go). -/
structure Post where
  id : Nat
  userId : Nat
  title : String
  content : String
  createdAt : String
deriving DecidableEq

namespace PostService

/-- Status, span events and success flag of the body of
`PostService.getPostHandler` (cmd/post/main.go), mirroring the user service
with the post-specific descriptions. -/
def bodyOutcome (ctx : Ctx) (req : GetReq) : Nat × List TEvent × Bool :=
  match req.idParam with
  | none => (400, [], false)
  | some s =>
    match atoi? s with
    | none => (400, [], false)
    | some _ =>
      match req.lookup with
      | Lookup.notFound =>
        (404,
         (if ctx.recording then
            [TEvent.recordErr "Failed to scan post data",
             TEvent.recordErr "Post not found"]
          else []),
         false)
      | Lookup.dbError =>
        (500,
         (if ctx.recording then
            [TEvent.recordErr "Failed to scan post data",
             TEvent.recordErr "Failed to get post"]
          else []),
         false)
      | Lookup.found => ((if req.encodeOk then 200 else 500), [], true)

/-- `PostService.getPostHandler` (cmd/post/main.go). -/
def getPostHandler (base : Ctx) (ftid fsid : Nat) (req : GetReq) : HResult :=
  let root := rootSpanOf base ftid fsid req.carrier
  let ctx := activeCtx base ftid fsid req.carrier
  let out := bodyOutcome ctx req
  let attrs := [("http.request.method", req.method), ("http.route", "/posts")]
  { status := out.fst,
    events := wrapInflight
      ((match root with
        | some sp => [TEvent.spanStart sp]
        | none => [])
       ++ out.snd.fst
       ++ [TEvent.counterAdd "post_service_requests_total" (exemplarOf ctx) attrs,
           TEvent.histRecord "post_service_request_duration_seconds" (exemplarOf ctx) attrs]
       ++ (match root with
           | some sp => [TEvent.spanEnd sp]
           | none => [])),
    respCarrier := if out.snd.snd then injectCtx ctx [] else [] }

/-- One `rows.Next()`-delivered row of the `getUserPosts` query: the row, or
`none` when `rows.Scan` fails on it. -/
abbrev ScanRow := Option Post

/-- Modelled from the database/sql contract (the driver is an external
collaborator): the row iterator can deliver `rows`, but when
`breakAfter = some k` iteration stops after `k` rows because of a row error
that only `rows.Err()` would report. -/
structure RowsSrc where
  rows : List ScanRow
  breakAfter : Option Nat
deriving DecidableEq

/-- The rows `rows.Next()` actually delivers. -/
def RowsSrc.yielded (r : RowsSrc) : List ScanRow :=
  match r.breakAfter with
  | some k => r.rows.take k
  | none => r.rows

/-- Whether `rows.Err()` would return a non-nil error after the loop. -/
def RowsSrc.iterAborted (r : RowsSrc) : Bool :=
  r.breakAfter.isSome

/-- The scan-and-append loop of `PostService.getUserPosts`
(cmd/post/main.go): `for rows.Next() { rows.Scan; posts = append(posts, post) }`.
A scan failure returns the error; note that after the loop the function
returns `posts, nil` without consulting `rows.Err()`. -/
def scanLoop : List ScanRow → List Post → Option (List Post)
  | [], acc => some acc
  | none :: _, _ => none
  | some p :: rest, acc => scanLoop rest (acc ++ [p])

/-- `PostService.getUserPosts` (cmd/post/main.go): `QueryContext` may fail;
otherwise the scan loop runs over the delivered rows and the accumulated
list is returned with a nil error — `rows.Err()` is never checked. -/
def getUserPosts (queryOk : Bool) (r : RowsSrc) : Option (List Post) :=
  if queryOk then scanLoop r.yielded [] else none

/-- Input of `getUserPostsHandler`: headers, method, the raw `user_id`
parameter, whether the query itself succeeds, the row source, and whether
the JSON encode succeeds. -/
structure PostsReq where
  carrier : Carrier
  method : String
  userIdParam : Option String
  queryOk : Bool
  rowsSrc : RowsSrc
  encodeOk : Bool
deriving DecidableEq

/-- Result of `getUserPostsHandler`, additionally carrying the JSON body. -/
structure PostsHResult where
  status : Nat
  events : List TEvent
  respCarrier : Carrier
  body : Option (List Post)
deriving DecidableEq

/-- `PostService.getUserPostsHandler` (cmd/post/main.go): like the other
read handlers, but no span-error recording at all — a `getUserPosts` failure
is answered with a bare 500. -/
def getUserPostsHandler (base : Ctx) (ftid fsid : Nat) (req : PostsReq) : PostsHResult :=
  let root := rootSpanOf base ftid fsid req.carrier
  let ctx := activeCtx base ftid fsid req.carrier
  let out : Nat × Option (List Post) × Bool :=
    match req.userIdParam with
    | none => (400, none, false)
    | some s =>
      match atoi? s with
      | none => (400, none, false)
      | some _ =>
        match getUserPosts req.queryOk req.rowsSrc with
        | none => (500, none, false)
        | some posts =>
          (if req.encodeOk then (200, some posts, true) else (500, none, true))
  let attrs := [("http.request.method", req.method), ("http.route", "/posts/by-user")]
  { status := out.fst,
    events := wrapInflight
      ((match root with
        | some sp => [TEvent.spanStart sp]
        | none => [])
       ++ [TEvent.counterAdd "post_service_requests_total" (exemplarOf ctx) attrs,
           TEvent.histRecord "post_service_request_duration_seconds" (exemplarOf ctx) attrs]
       ++ (match root with
           | some sp => [TEvent.spanEnd sp]
           | none => [])),
    respCarrier := if out.snd.snd then injectCtx ctx [] else [],
    body := out.snd.fst }

/-- `PostService.healthHandler` (cmd/post/main.go). -/
def healthHandler (base : Ctx) (method : String) : HResult :=
  let attrs := [("http.request.method", method), ("http.route", "/health")]
  { status := 200,
    events := wrapInflight
      [TEvent.counterAdd "post_service_requests_total" (exemplarOf base) attrs,
       TEvent.histRecord "post_service_request_duration_seconds" (exemplarOf base) attrs],
    respCarrier := [] }

/-- `PostService.errorHandler` (cmd/post/main.go): like the user variant but
responds 503 with the database-flavoured error, and performs no response
injection. -/
def errorHandler (base : Ctx) (carrier : Carrier) (method : String) : HResult :=
  let ctx := extractInto base carrier
  let attrsC := [("http.request.method", method), ("http.route", "/error"),
                 ("http.response.status_code", "503")]
  let attrsH := [("http.request.method", method), ("http.route", "/error")]
  { status := 503,
    events := wrapInflight
      ((if ctx.recording then
          [TEvent.recordErr "Database connection failed",
           TEvent.setAttrs [("http.response.status_code", "503"),
                            ("error.type", "database_error")]]
        else [])
       ++ [TEvent.counterAdd "post_service_requests_total" (exemplarOf ctx) attrsC,
           TEvent.histRecord "post_service_request_duration_seconds" (exemplarOf ctx) attrsH]),
    respCarrier := [] }

end PostService

/-- A downstream HTTP response as seen by the outbound client wrappers. -/
structure HTTPResponse where
  statusCode : Nat
  body : String
deriving DecidableEq

namespace MicroserviceClient

/-- `MicroserviceClient.callService` (main.go): after injecting the trace
context, any status other than exactly 200 yields `(nil, err)` where the
error message carries only the status code; on 200 the body is returned with
no error. -/
def callService (resp : HTTPResponse) : Option String × Option String :=
  if resp.statusCode ≠ 200 then
    (none, some ("service returned status: " ++ toString resp.statusCode))
  else (some resp.body, none)

/-- `MicroserviceClient.callServiceIgnoreError` (main.go): the body is read
even on an error status, and any status at or above 400 additionally yields
an error message carrying both the status code and the body. -/
def callServiceIgnoreError (resp : HTTPResponse) : Option String × Option String :=
  if 400 ≤ resp.statusCode then
    (some resp.body,
     some ("HTTP " ++ toString resp.statusCode ++ ": " ++ resp.body))
  else (some resp.body, none)

end MicroserviceClient

/-- Whether `hay` begins with `needle`. -/
def beginsWith : List Char → List Char → Bool
  | [], _ => true
  | _ :: _, [] => false
  | a :: as, b :: bs => a == b && beginsWith as bs

/-- Whether `needle` occurs as a contiguous substring of the second list. -/
def containsSub (needle : List Char) : List Char → Bool
  | [] => needle.isEmpty
  | c :: rest => beginsWith needle (c :: rest) || containsSub needle rest

theorem beginsWith_append (n h : List Char) : beginsWith n (n ++ h) = true := by
  induction n with
  | nil => rfl
  | cons c cs ih => simp [beginsWith, ih]

theorem containsSub_append (n a : List Char) : containsSub n (a ++ n) = true := by
  induction a with
  | nil =>
    cases n with
    | nil => rfl
    | cons c cs =>
      have h := beginsWith_append (c :: cs) []
      rw [List.append_nil] at h
      simp [containsSub, h]
  | cons c cs ih => simp [containsSub, ih]

/-- Count of in-flight increments in an event list. -/
def incCount (evs : List TEvent) : Nat :=
  evs.countP (fun e => match e with
    | TEvent.inflight d => d == 1
    | _ => false)

/-- Count of in-flight decrements in an event list. -/
def decCount (evs : List TEvent) : Nat :=
  evs.countP (fun e => match e with
    | TEvent.inflight d => d == -1
    | _ => false)

/-- Count of request-counter increments in an event list. -/
def counterCount (evs : List TEvent) : Nat :=
  evs.countP (fun e => match e with
    | TEvent.counterAdd _ _ _ => true
    | _ => false)

/-- Count of duration-histogram observations in an event list. -/
def histCount (evs : List TEvent) : Nat :=
  evs.countP (fun e => match e with
    | TEvent.histRecord _ _ _ => true
    | _ => false)

/-- Count of span-error recordings in an event list. -/
def errCount (evs : List TEvent) : Nat :=
  evs.countP (fun e => match e with
    | TEvent.recordErr _ => true
    | _ => false)

/-- The exemplar slot of every metric sample in an event list, in order. -/
def sampleExemplars (evs : List TEvent) : List (Option Nat) :=
  evs.filterMap (fun e => match e with
    | TEvent.counterAdd _ x _ => some x
    | TEvent.histRecord _ x _ => some x
    | _ => none)

/-- One inbound request to any endpoint of either service, with everything
the corresponding handler consumes. -/
inductive AnyReq where
  | uGet (base : Ctx) (ftid fsid : Nat) (req : GetReq)
  | uHealth (base : Ctx) (method : String)
  | uError (base : Ctx) (carrier : Carrier) (method : String)
  | pGet (base : Ctx) (ftid fsid : Nat) (req : GetReq)
  | pPosts (base : Ctx) (ftid fsid : Nat) (req : PostService.PostsReq)
  | pHealth (base : Ctx) (method : String)
  | pError (base : Ctx) (carrier : Carrier) (method : String)

/-- Dispatch a request to its handler and return the emitted events. -/
def handleAny : AnyReq → List TEvent
  | AnyReq.uGet base ftid fsid req => (UserService.getUserHandler base ftid fsid req).events
  | AnyReq.uHealth base method => (UserService.healthHandler base method).events
  | AnyReq.uError base carrier method => (UserService.errorHandler base carrier method).events
  | AnyReq.pGet base ftid fsid req => (PostService.getPostHandler base ftid fsid req).events
  | AnyReq.pPosts base ftid fsid req => (PostService.getUserPostsHandler base ftid fsid req).events
  | AnyReq.pHealth base method => (PostService.healthHandler base method).events
  | AnyReq.pError base carrier method => (PostService.errorHandler base carrier method).events

theorem parse_valid (v : List Char) (c : TraceContext)
    (h : parseTraceparent v = some c) : c.isValid = true := by
  unfold parseTraceparent at h
  split at h
  · split at h
    · split at h
      · rw [Option.ite_none_right_eq_some] at h
        obtain ⟨⟨h1, h2⟩, hc⟩ := h
        have hc2 := Option.some.inj hc
        subst hc2
        simp [TraceContext.isValid, h1, h2]
      all_goals exact absurd h (by simp)
    · exact absurd h (by simp)
  · exact absurd h (by simp)

theorem extract_valid (carrier : Carrier) (c : TraceContext)
    (h : extract carrier = some c) : c.isValid = true := by
  unfold extract at h
  split at h
  · exact parse_valid _ _ h
  · exact absurd h (by simp)

theorem extractInto_some (base : Ctx) (carrier : Carrier) (c : TraceContext)
    (h : extract carrier = some c) :
    extractInto base carrier = { span := some c, recording := false } := by
  simp [extractInto, h]

theorem extractInto_none (base : Ctx) (carrier : Carrier)
    (h : extract carrier = none) : extractInto base carrier = base := by
  simp [extractInto, h]

theorem spanCtxValid_of_extract (base : Ctx) (carrier : Carrier) (c : TraceContext)
    (h : extract carrier = some c) :
    (extractInto base carrier).spanCtxValid = true := by
  rw [extractInto_some base carrier c h]
  simp [Ctx.spanCtxValid, extract_valid carrier c h]

/-- Whether an event is a span-error recording. -/
def isRecordErr : TEvent → Bool
  | TEvent.recordErr _ => true
  | _ => false

/-- Event lists produced by the handler bodies hold only span-error
recordings. -/
def onlyRecordErr (evs : List TEvent) : Prop :=
  ∀ e ∈ evs, isRecordErr e = true

theorem user_body_onlyRecordErr (ctx : Ctx) (req : GetReq) :
    onlyRecordErr (UserService.bodyOutcome ctx req).snd.fst := by
  unfold UserService.bodyOutcome onlyRecordErr
  split
  · simp
  · split
    · simp
    · split <;> dsimp only <;> (try split) <;>
        simp [List.forall_mem_cons, isRecordErr]

theorem post_body_onlyRecordErr (ctx : Ctx) (req : GetReq) :
    onlyRecordErr (PostService.bodyOutcome ctx req).snd.fst := by
  unfold PostService.bodyOutcome onlyRecordErr
  split
  · simp
  · split
    · simp
    · split <;> dsimp only <;> (try split) <;>
        simp [List.forall_mem_cons, isRecordErr]

theorem counts_of_onlyRecordErr (evs : List TEvent) (h : onlyRecordErr evs) :
    incCount evs = 0 ∧ decCount evs = 0 ∧ counterCount evs = 0 ∧ histCount evs = 0 := by
  refine ⟨?_, ?_, ?_, ?_⟩ <;>
    · simp only [incCount, decCount, counterCount, histCount]
      rw [List.countP_eq_zero]
      intro e he
      have hre := h e he
      cases e <;> simp_all [isRecordErr]

theorem spanStart_not_mem_of_onlyRecordErr (evs : List TEvent) (h : onlyRecordErr evs)
    (sp : SpanData) : TEvent.spanStart sp ∉ evs := by
  intro hmem
  have := h _ hmem
  simp [isRecordErr] at this

theorem beq_int_one_one : ((1 : Int) == 1) = true := rfl

theorem beq_int_negone_one : ((-1 : Int) == 1) = false := rfl

theorem beq_int_one_negone : ((1 : Int) == -1) = false := rfl

theorem beq_int_negone_negone : ((-1 : Int) == -1) = true := rfl

theorem user_get_counts (base : Ctx) (ftid fsid : Nat) (req : GetReq) :
    incCount (UserService.getUserHandler base ftid fsid req).events = 1 ∧
    decCount (UserService.getUserHandler base ftid fsid req).events = 1 ∧
    counterCount (UserService.getUserHandler base ftid fsid req).events = 1 ∧
    histCount (UserService.getUserHandler base ftid fsid req).events = 1 := by
  obtain ⟨hbi, hbd, hbc, hbh⟩ :=
    counts_of_onlyRecordErr _ (user_body_onlyRecordErr (activeCtx base ftid fsid req.carrier) req)
  simp only [incCount, decCount, counterCount, histCount] at hbi hbd hbc hbh ⊢
  unfold UserService.getUserHandler
  cases hrs : rootSpanOf base ftid fsid req.carrier <;>
    simp [wrapInflight, List.countP_cons, List.countP_append, hbi, hbd, hbc, hbh,
      beq_int_one_one, beq_int_negone_one, beq_int_one_negone, beq_int_negone_negone]

theorem post_get_counts (base : Ctx) (ftid fsid : Nat) (req : GetReq) :
    incCount (PostService.getPostHandler base ftid fsid req).events = 1 ∧
    decCount (PostService.getPostHandler base ftid fsid req).events = 1 ∧
    counterCount (PostService.getPostHandler base ftid fsid req).events = 1 ∧
    histCount (PostService.getPostHandler base ftid fsid req).events = 1 := by
  obtain ⟨hbi, hbd, hbc, hbh⟩ :=
    counts_of_onlyRecordErr _ (post_body_onlyRecordErr (activeCtx base ftid fsid req.carrier) req)
  simp only [incCount, decCount, counterCount, histCount] at hbi hbd hbc hbh ⊢
  unfold PostService.getPostHandler
  cases hrs : rootSpanOf base ftid fsid req.carrier <;>
    simp [wrapInflight, List.countP_cons, List.countP_append, hbi, hbd, hbc, hbh,
      beq_int_one_one, beq_int_negone_one, beq_int_one_negone, beq_int_negone_negone]

theorem post_posts_counts (base : Ctx) (ftid fsid : Nat) (req : PostService.PostsReq) :
    incCount (PostService.getUserPostsHandler base ftid fsid req).events = 1 ∧
    decCount (PostService.getUserPostsHandler base ftid fsid req).events = 1 ∧
    counterCount (PostService.getUserPostsHandler base ftid fsid req).events = 1 ∧
    histCount (PostService.getUserPostsHandler base ftid fsid req).events = 1 := by
  simp only [incCount, decCount, counterCount, histCount]
  unfold PostService.getUserPostsHandler
  cases hrs : rootSpanOf base ftid fsid req.carrier <;>
    simp [wrapInflight, List.countP_cons, List.countP_append,
      beq_int_one_one, beq_int_negone_one, beq_int_one_negone, beq_int_negone_negone]

theorem user_health_counts (base : Ctx) (method : String) :
    incCount (UserService.healthHandler base method).events = 1 ∧
    decCount (UserService.healthHandler base method).events = 1 ∧
    counterCount (UserService.healthHandler base method).events = 1 ∧
    histCount (UserService.healthHandler base method).events = 1 := by
  simp [UserService.healthHandler, wrapInflight, incCount, decCount, counterCount,
    histCount, List.countP_cons, List.countP_append,
    beq_int_one_one, beq_int_negone_one, beq_int_one_negone, beq_int_negone_negone]

theorem post_health_counts (base : Ctx) (method : String) :
    incCount (PostService.healthHandler base method).events = 1 ∧
    decCount (PostService.healthHandler base method).events = 1 ∧
    counterCount (PostService.healthHandler base method).events = 1 ∧
    histCount (PostService.healthHandler base method).events = 1 := by
  simp [PostService.healthHandler, wrapInflight, incCount, decCount, counterCount,
    histCount, List.countP_cons, List.countP_append,
    beq_int_one_one, beq_int_negone_one, beq_int_one_negone, beq_int_negone_negone]

theorem user_error_counts (base : Ctx) (carrier : Carrier) (method : String) :
    incCount (UserService.errorHandler base carrier method).events = 1 ∧
    decCount (UserService.errorHandler base carrier method).events = 1 ∧
    counterCount (UserService.errorHandler base carrier method).events = 1 ∧
    histCount (UserService.errorHandler base carrier method).events = 1 := by
  simp only [incCount, decCount, counterCount, histCount]
  unfold UserService.errorHandler
  cases hr : (extractInto base carrier).recording <;>
    simp [wrapInflight, List.countP_cons, List.countP_append, hr,
      beq_int_one_one, beq_int_negone_one, beq_int_one_negone, beq_int_negone_negone]

theorem post_error_counts (base : Ctx) (carrier : Carrier) (method : String) :
    incCount (PostService.errorHandler base carrier method).events = 1 ∧
    decCount (PostService.errorHandler base carrier method).events = 1 ∧
    counterCount (PostService.errorHandler base carrier method).events = 1 ∧
    histCount (PostService.errorHandler base carrier method).events = 1 := by
  simp only [incCount, decCount, counterCount, histCount]
  unfold PostService.errorHandler
  cases hr : (extractInto base carrier).recording <;>
    simp [wrapInflight, List.countP_cons, List.countP_append, hr,
      beq_int_one_one, beq_int_negone_one, beq_int_one_negone, beq_int_negone_negone]

/-- C1: Propagator round-trip — for every valid TraceContext (non-zero
trace id and span id, fields within their wire widths), injecting it into an
empty carrier with the configured W3C trace-context propagator and then
extracting from that carrier yields the same context: same trace id, span id
and flags. -/
theorem propagator_roundtrip (c : TraceContext)
    (hb : c.bounded) (ht : c.traceId ≠ 0) (hs : c.spanId ≠ 0) :
    extract (inject c []) = some c :=
  extract_inject c [] hb ht hs

/-- Witness for C1 at a concrete valid context. -/
theorem propagator_roundtrip_witness :
    extract (inject ⟨1, 2, 1⟩ []) = some ⟨1, 2, 1⟩ :=
  propagator_roundtrip ⟨1, 2, 1⟩
    (by unfold TraceContext.bounded; refine ⟨by norm_num, by norm_num, by norm_num⟩)
    (by norm_num) (by norm_num)

/-- C6: In-flight balance — every request handled by any endpoint of either
service emits exactly one in-flight increment and exactly one in-flight
decrement, on every exit path, so over any sequence of completed requests
the total increments equal the total decrements. -/
theorem inflight_balance :
    (∀ r : AnyReq, incCount (handleAny r) = 1 ∧ decCount (handleAny r) = 1) ∧
    (∀ rs : List AnyReq,
      (rs.map (fun r => incCount (handleAny r))).sum =
        (rs.map (fun r => decCount (handleAny r))).sum) := by
  have h1 : ∀ r : AnyReq, incCount (handleAny r) = 1 ∧ decCount (handleAny r) = 1 := by
    intro r
    cases r with
    | uGet base ftid fsid req =>
      exact ⟨(user_get_counts base ftid fsid req).1, (user_get_counts base ftid fsid req).2.1⟩
    | uHealth base method =>
      exact ⟨(user_health_counts base method).1, (user_health_counts base method).2.1⟩
    | uError base carrier method =>
      exact ⟨(user_error_counts base carrier method).1,
        (user_error_counts base carrier method).2.1⟩
    | pGet base ftid fsid req =>
      exact ⟨(post_get_counts base ftid fsid req).1, (post_get_counts base ftid fsid req).2.1⟩
    | pPosts base ftid fsid req =>
      exact ⟨(post_posts_counts base ftid fsid req).1,
        (post_posts_counts base ftid fsid req).2.1⟩
    | pHealth base method =>
      exact ⟨(post_health_counts base method).1, (post_health_counts base method).2.1⟩
    | pError base carrier method =>
      exact ⟨(post_error_counts base carrier method).1,
        (post_error_counts base carrier method).2.1⟩
  refine ⟨h1, ?_⟩
  intro rs
  induction rs with
  | nil => rfl
  | cons r rest ih =>
    simp only [List.map_cons, List.sum_cons, (h1 r).1, (h1 r).2, ih]

/-- C2: Continuation — when a request arrives whose carrier was produced by
`inject c _` for a valid context `c`, the hop gets a span whose trace id is
`c.traceId`, whose parent span id is `c.spanId`, and whose own span id is the
freshly synthesized one (distinct from `c.spanId`); correspondingly the read
handlers of both services do not start a root span of their own on such a
request. -/
theorem continuation_span (c : TraceContext) (c0 : Carrier) (ftid fsid : Nat)
    (hb : c.bounded) (ht : c.traceId ≠ 0) (hs : c.spanId ≠ 0)
    (hfresh : fsid ≠ c.spanId) (req : GetReq) (hreq : req.carrier = inject c c0) :
    hopSpan (extract req.carrier) ftid fsid =
      { traceId := c.traceId, spanId := fsid, parent := some c.spanId } ∧
    (hopSpan (extract req.carrier) ftid fsid).spanId ≠ c.spanId ∧
    rootSpanOf Ctx.noSpan ftid fsid req.carrier = none ∧
    (∀ sp : SpanData,
      TEvent.spanStart sp ∉ (UserService.getUserHandler Ctx.noSpan ftid fsid req).events) ∧
    (∀ sp : SpanData,
      TEvent.spanStart sp ∉ (PostService.getPostHandler Ctx.noSpan ftid fsid req).events) := by
  have hx : extract req.carrier = some c := by
    rw [hreq]
    exact extract_inject c c0 hb ht hs
  have hv := extract_valid _ _ hx
  have hh : hopSpan (extract req.carrier) ftid fsid =
      { traceId := c.traceId, spanId := fsid, parent := some c.spanId } := by
    rw [hx]
    simp [hopSpan, hv]
  have hroot : rootSpanOf Ctx.noSpan ftid fsid req.carrier = none := by
    simp [rootSpanOf, spanCtxValid_of_extract Ctx.noSpan req.carrier c hx]
  refine ⟨hh, ?_, hroot, ?_, ?_⟩
  · rw [hh]
    simpa using hfresh
  · intro sp
    have hbody := spanStart_not_mem_of_onlyRecordErr _
      (user_body_onlyRecordErr (activeCtx Ctx.noSpan ftid fsid req.carrier) req) sp
    simp only [UserService.getUserHandler, hroot]
    simpa [wrapInflight] using hbody
  · intro sp
    have hbody := spanStart_not_mem_of_onlyRecordErr _
      (post_body_onlyRecordErr (activeCtx Ctx.noSpan ftid fsid req.carrier) req) sp
    simp only [PostService.getPostHandler, hroot]
    simpa [wrapInflight] using hbody

/-- Witness for C2 at a concrete valid context and request. -/
theorem continuation_span_witness :
    hopSpan (extract (inject ⟨3, 4, 1⟩ [])) 9 5 =
      { traceId := 3, spanId := 5, parent := some 4 } :=
  (continuation_span ⟨3, 4, 1⟩ [] 9 5
    (by unfold TraceContext.bounded; exact ⟨by norm_num, by norm_num, by norm_num⟩)
    (by norm_num) (by norm_num) (by norm_num)
    { carrier := inject ⟨3, 4, 1⟩ [], method := "GET", idParam := some "1",
      lookup := Lookup.found, encodeOk := true } rfl).1

/-- C3: Root fallback — on a request whose carrier yields no valid extracted
context (empty or malformed), with no valid span already on the request
context, the read handler starts a new root span carrying the freshly
generated trace id and no parent; and for an injective supply of fresh trace
ids, distinct requests get distinct root trace ids. -/
theorem root_fallback (carrier : Carrier) (ftid fsid : Nat)
    (hext : extract carrier = none) (req : GetReq) (hreq : req.carrier = carrier)
    (base : Ctx) (hbase : base.spanCtxValid = false) :
    rootSpanOf base ftid fsid carrier = some ⟨ftid, fsid, none⟩ ∧
    TEvent.spanStart (⟨ftid, fsid, none⟩ : SpanData) ∈
      (UserService.getUserHandler base ftid fsid req).events ∧
    hopSpan (extract carrier) ftid fsid = ⟨ftid, fsid, none⟩ ∧
    (∀ g : Nat → Nat, Function.Injective g → ∀ i j : Nat, i ≠ j →
      (hopSpan (extract carrier) (g i) fsid).traceId ≠
        (hopSpan (extract carrier) (g j) fsid).traceId) := by
  have hroot : rootSpanOf base ftid fsid carrier = some ⟨ftid, fsid, none⟩ := by
    simp [rootSpanOf, extractInto_none base carrier hext, hbase, startRootSpan]
  refine ⟨hroot, ?_, ?_, ?_⟩
  · subst hreq
    simp only [UserService.getUserHandler, hroot]
    simp [wrapInflight]
  · simp [hopSpan, hext]
  · intro g hg i j hij
    simp only [hopSpan, hext]
    intro h
    exact hij (hg h)

/-- Witness for C3 at the empty carrier. -/
theorem root_fallback_witness :
    rootSpanOf Ctx.noSpan 7 8 [] = some ⟨7, 8, none⟩ :=
  (root_fallback [] 7 8 rfl
    { carrier := [], method := "GET", idParam := none,
      lookup := Lookup.found, encodeOk := true } rfl Ctx.noSpan rfl).1

/-- C4 counterexample: a not-found request under a recording (root) span is
answered 404 but the handler DOES record an error status on the active span,
contradicting the claim that no error status is recorded. -/
theorem notfound_span_error_counterexample :
    (UserService.getUserHandler Ctx.noSpan 7 9
      { carrier := [], method := "GET", idParam := some "999999",
        lookup := Lookup.notFound, encodeOk := true }).status = 404 ∧
    TEvent.recordErr "User not found" ∈
      (UserService.getUserHandler Ctx.noSpan 7 9
        { carrier := [], method := "GET", idParam := some "999999",
          lookup := Lookup.notFound, encodeOk := true }).events := by
  decide

/-- C4 (amended): a not-found request is answered 404 and still records
exactly one count increment and one duration observation; but whenever a
recording span is active the handlers record an Error status on it (with the
not-found description) — no span error is recorded only when no recording
span is active. -/
theorem notfound_behavior (base : Ctx) (ftid fsid : Nat) (req : GetReq)
    (hid : ∃ s n, req.idParam = some s ∧ atoi? s = some n)
    (hlk : req.lookup = Lookup.notFound) :
    (UserService.getUserHandler base ftid fsid req).status = 404 ∧
    (PostService.getPostHandler base ftid fsid req).status = 404 ∧
    counterCount (UserService.getUserHandler base ftid fsid req).events = 1 ∧
    histCount (UserService.getUserHandler base ftid fsid req).events = 1 ∧
    counterCount (PostService.getPostHandler base ftid fsid req).events = 1 ∧
    histCount (PostService.getPostHandler base ftid fsid req).events = 1 ∧
    ((activeCtx base ftid fsid req.carrier).recording = true →
      TEvent.recordErr "User not found" ∈
        (UserService.getUserHandler base ftid fsid req).events ∧
      TEvent.recordErr "Post not found" ∈
        (PostService.getPostHandler base ftid fsid req).events) ∧
    ((activeCtx base ftid fsid req.carrier).recording = false →
      errCount (UserService.getUserHandler base ftid fsid req).events = 0 ∧
      errCount (PostService.getPostHandler base ftid fsid req).events = 0) := by
  obtain ⟨s, n, hI, hA⟩ := hid
  have hu : UserService.bodyOutcome (activeCtx base ftid fsid req.carrier) req =
      (404,
       (if (activeCtx base ftid fsid req.carrier).recording then
          [TEvent.recordErr "Failed to scan user data",
           TEvent.recordErr "User not found"]
        else []),
       false) := by
    unfold UserService.bodyOutcome
    simp only [hI, hA, hlk]
  have hp : PostService.bodyOutcome (activeCtx base ftid fsid req.carrier) req =
      (404,
       (if (activeCtx base ftid fsid req.carrier).recording then
          [TEvent.recordErr "Failed to scan post data",
           TEvent.recordErr "Post not found"]
        else []),
       false) := by
    unfold PostService.bodyOutcome
    simp only [hI, hA, hlk]
  refine ⟨?_, ?_, (user_get_counts base ftid fsid req).2.2.1,
    (user_get_counts base ftid fsid req).2.2.2,
    (post_get_counts base ftid fsid req).2.2.1,
    (post_get_counts base ftid fsid req).2.2.2, ?_, ?_⟩
  · simp only [UserService.getUserHandler, hu]
  · simp only [PostService.getPostHandler, hp]
  · intro hrec
    constructor
    · simp only [UserService.getUserHandler, hu, hrec, if_true]
      simp [wrapInflight]
    · simp only [PostService.getPostHandler, hp, hrec, if_true]
      simp [wrapInflight]
  · intro hrec
    constructor
    · simp only [UserService.getUserHandler, hu, hrec]
      cases hrs : rootSpanOf base ftid fsid req.carrier <;>
        simp [wrapInflight, errCount, List.countP_cons, List.countP_append]
    · simp only [PostService.getPostHandler, hp, hrec]
      cases hrs : rootSpanOf base ftid fsid req.carrier <;>
        simp [wrapInflight, errCount, List.countP_cons, List.countP_append]

/-- Witness for the amended C4 at a concrete not-found request. -/
theorem notfound_behavior_witness :
    (UserService.getUserHandler Ctx.noSpan 7 9
      { carrier := [], method := "GET", idParam := some "1",
        lookup := Lookup.notFound, encodeOk := true }).status = 404 :=
  (notfound_behavior Ctx.noSpan 7 9
    { carrier := [], method := "GET", idParam := some "1",
      lookup := Lookup.notFound, encodeOk := true }
    ⟨"1", 1, rfl, by decide⟩ rfl).1

/-- C7: Client input error path — a request with a missing or non-numeric id
parameter is answered 400, no span error is recorded, the deferred exit path
still records exactly one count increment and one duration observation, and
any span the handler started is ended. -/
theorem client_input_error (base : Ctx) (ftid fsid : Nat) (req : GetReq)
    (hbad : req.idParam = none ∨ ∃ s, req.idParam = some s ∧ atoi? s = none) :
    (UserService.getUserHandler base ftid fsid req).status = 400 ∧
    (PostService.getPostHandler base ftid fsid req).status = 400 ∧
    errCount (UserService.getUserHandler base ftid fsid req).events = 0 ∧
    errCount (PostService.getPostHandler base ftid fsid req).events = 0 ∧
    counterCount (UserService.getUserHandler base ftid fsid req).events = 1 ∧
    histCount (UserService.getUserHandler base ftid fsid req).events = 1 ∧
    counterCount (PostService.getPostHandler base ftid fsid req).events = 1 ∧
    histCount (PostService.getPostHandler base ftid fsid req).events = 1 ∧
    (∀ sp : SpanData,
      TEvent.spanStart sp ∈ (UserService.getUserHandler base ftid fsid req).events →
        TEvent.spanEnd sp ∈ (UserService.getUserHandler base ftid fsid req).events) ∧
    (∀ sp : SpanData,
      TEvent.spanStart sp ∈ (PostService.getPostHandler base ftid fsid req).events →
        TEvent.spanEnd sp ∈ (PostService.getPostHandler base ftid fsid req).events) := by
  have hu : UserService.bodyOutcome (activeCtx base ftid fsid req.carrier) req =
      (400, [], false) := by
    unfold UserService.bodyOutcome
    rcases hbad with hI | ⟨s, hI, hA⟩
    · simp only [hI]
    · simp only [hI, hA]
  have hp : PostService.bodyOutcome (activeCtx base ftid fsid req.carrier) req =
      (400, [], false) := by
    unfold PostService.bodyOutcome
    rcases hbad with hI | ⟨s, hI, hA⟩
    · simp only [hI]
    · simp only [hI, hA]
  refine ⟨?_, ?_, ?_, ?_, (user_get_counts base ftid fsid req).2.2.1,
    (user_get_counts base ftid fsid req).2.2.2,
    (post_get_counts base ftid fsid req).2.2.1,
    (post_get_counts base ftid fsid req).2.2.2, ?_, ?_⟩
  · simp only [UserService.getUserHandler, hu]
  · simp only [PostService.getPostHandler, hp]
  · simp only [UserService.getUserHandler, hu]
    cases hrs : rootSpanOf base ftid fsid req.carrier <;>
      simp [wrapInflight, errCount, List.countP_cons, List.countP_append]
  · simp only [PostService.getPostHandler, hp]
    cases hrs : rootSpanOf base ftid fsid req.carrier <;>
      simp [wrapInflight, errCount, List.countP_cons, List.countP_append]
  · intro sp
    simp only [UserService.getUserHandler, hu]
    cases hrs : rootSpanOf base ftid fsid req.carrier with
    | none => simp [wrapInflight]
    | some sp0 => simp [wrapInflight]
  · intro sp
    simp only [PostService.getPostHandler, hp]
    cases hrs : rootSpanOf base ftid fsid req.carrier with
    | none => simp [wrapInflight]
    | some sp0 => simp [wrapInflight]

/-- Witness for C7 at a concrete request missing the id parameter. -/
theorem client_input_error_witness :
    (UserService.getUserHandler Ctx.noSpan 7 9
      { carrier := [], method := "GET", idParam := none,
        lookup := Lookup.found, encodeOk := true }).status = 400 :=
  (client_input_error Ctx.noSpan 7 9
    { carrier := [], method := "GET", idParam := none,
      lookup := Lookup.found, encodeOk := true } (Or.inl rfl)).1

/-- C5 counterexample: for the error-propagating wrapper `callService`, a
500 response with body "database down" yields an error that carries only the
status code — the response body does not occur anywhere in the error. -/
theorem downstream_error_counterexample :
    MicroserviceClient.callService { statusCode := 500, body := "database down" } =
      (none, some "service returned status: 500") ∧
    containsSub ("database down").data ("service returned status: 500").data = false := by
  constructor
  · decide
  · decide

/-- C5 (amended): `callService` returns an error carrying only the
downstream status code (not the body) whenever the status is anything other
than exactly 200, and the body with no error on 200; the error-test variant
`callServiceIgnoreError` returns the body in every completed call and an
error carrying both the status code and the body exactly when the status is
at least 400. -/
theorem downstream_call_wrapping (resp : HTTPResponse) :
    (resp.statusCode ≠ 200 →
      MicroserviceClient.callService resp =
        (none, some ("service returned status: " ++ toString resp.statusCode))) ∧
    (resp.statusCode = 200 →
      MicroserviceClient.callService resp = (some resp.body, none)) ∧
    (400 ≤ resp.statusCode →
      MicroserviceClient.callServiceIgnoreError resp =
        (some resp.body,
         some ("HTTP " ++ toString resp.statusCode ++ ": " ++ resp.body)) ∧
      containsSub resp.body.data
        ("HTTP " ++ toString resp.statusCode ++ ": " ++ resp.body).data = true) ∧
    (resp.statusCode < 400 →
      MicroserviceClient.callServiceIgnoreError resp = (some resp.body, none)) := by
  refine ⟨?_, ?_, ?_, ?_⟩
  · intro h
    simp [MicroserviceClient.callService, h]
  · intro h
    simp [MicroserviceClient.callService, h]
  · intro h
    refine ⟨by simp [MicroserviceClient.callServiceIgnoreError, h], ?_⟩
    rw [String.data_append]
    exact containsSub_append _ _
  · intro h
    simp [MicroserviceClient.callServiceIgnoreError, Nat.not_le.mpr h]

/-- Witness for the amended C5 at concrete responses. -/
theorem downstream_call_wrapping_witness :
    MicroserviceClient.callServiceIgnoreError { statusCode := 503, body := "x" } =
      (some "x", some "HTTP 503: x") ∧
    MicroserviceClient.callService { statusCode := 200, body := "ok" } =
      (some "ok", none) :=
  ⟨((downstream_call_wrapping { statusCode := 503, body := "x" }).2.2.1 (by norm_num)).1,
   (downstream_call_wrapping { statusCode := 200, body := "ok" }).2.1 rfl⟩

theorem activeCtx_some (base : Ctx) (ftid fsid : Nat) (carrier : Carrier)
    (c : TraceContext) (h : extract carrier = some c) :
    activeCtx base ftid fsid carrier = { span := some c, recording := false } := by
  unfold activeCtx
  rw [spanCtxValid_of_extract base carrier c h, extractInto_some base carrier c h]
  simp

theorem activeCtx_invalid (base : Ctx) (ftid fsid : Nat) (carrier : Carrier)
    (h : extract carrier = none) (hbase : base.spanCtxValid = false) :
    activeCtx base ftid fsid carrier = { span := some ⟨ftid, fsid, 1⟩, recording := true } := by
  unfold activeCtx
  rw [extractInto_none base carrier h, hbase]
  simp [startRootSpan]

theorem rootSpanOf_some (base : Ctx) (ftid fsid : Nat) (carrier : Carrier)
    (c : TraceContext) (h : extract carrier = some c) :
    rootSpanOf base ftid fsid carrier = none := by
  unfold rootSpanOf
  rw [spanCtxValid_of_extract base carrier c h]
  simp

theorem rootSpanOf_invalid (base : Ctx) (ftid fsid : Nat) (carrier : Carrier)
    (h : extract carrier = none) (hbase : base.spanCtxValid = false) :
    rootSpanOf base ftid fsid carrier = some ⟨ftid, fsid, none⟩ := by
  unfold rootSpanOf
  rw [extractInto_none base carrier h, hbase]
  simp [startRootSpan]

theorem sampleExemplars_of_onlyRecordErr (evs : List TEvent) (h : onlyRecordErr evs) :
    sampleExemplars evs = [] := by
  unfold sampleExemplars
  rw [List.filterMap_eq_nil_iff]
  intro e he
  have := h e he
  cases e <;> simp_all [isRecordErr]

theorem exemplarOf_valid (ctx : Ctx) (c : TraceContext) (hs : ctx.span = some c)
    (hv : c.isValid = true) : exemplarOf ctx = some c.traceId := by
  unfold exemplarOf
  rw [hs]
  simp [hv]

theorem exemplarOf_invalid (ctx : Ctx) (h : ctx.spanCtxValid = false) :
    exemplarOf ctx = none := by
  unfold exemplarOf
  unfold Ctx.spanCtxValid at h
  cases hs : ctx.span with
  | none => rfl
  | some c =>
    rw [hs] at h
    simp only [] at h
    simp [h]

theorem user_get_exemplars (base : Ctx) (ftid fsid : Nat) (req : GetReq) :
    sampleExemplars (UserService.getUserHandler base ftid fsid req).events =
      [exemplarOf (activeCtx base ftid fsid req.carrier),
       exemplarOf (activeCtx base ftid fsid req.carrier)] := by
  have hbody := sampleExemplars_of_onlyRecordErr _
    (user_body_onlyRecordErr (activeCtx base ftid fsid req.carrier) req)
  simp only [sampleExemplars] at hbody
  unfold UserService.getUserHandler
  cases hrs : rootSpanOf base ftid fsid req.carrier <;>
    simp [wrapInflight, sampleExemplars, List.filterMap_append, List.filterMap_cons,
      hbody, hrs]

theorem post_get_exemplars (base : Ctx) (ftid fsid : Nat) (req : GetReq) :
    sampleExemplars (PostService.getPostHandler base ftid fsid req).events =
      [exemplarOf (activeCtx base ftid fsid req.carrier),
       exemplarOf (activeCtx base ftid fsid req.carrier)] := by
  have hbody := sampleExemplars_of_onlyRecordErr _
    (post_body_onlyRecordErr (activeCtx base ftid fsid req.carrier) req)
  simp only [sampleExemplars] at hbody
  unfold PostService.getPostHandler
  cases hrs : rootSpanOf base ftid fsid req.carrier <;>
    simp [wrapInflight, sampleExemplars, List.filterMap_append, List.filterMap_cons,
      hbody, hrs]

theorem post_posts_exemplars (base : Ctx) (ftid fsid : Nat) (req : PostService.PostsReq) :
    sampleExemplars (PostService.getUserPostsHandler base ftid fsid req).events =
      [exemplarOf (activeCtx base ftid fsid req.carrier),
       exemplarOf (activeCtx base ftid fsid req.carrier)] := by
  unfold PostService.getUserPostsHandler
  cases hrs : rootSpanOf base ftid fsid req.carrier <;>
    simp [wrapInflight, sampleExemplars, List.filterMap_append, List.filterMap_cons, hrs]

theorem user_health_exemplars (base : Ctx) (method : String) :
    sampleExemplars (UserService.healthHandler base method).events =
      [exemplarOf base, exemplarOf base] := by
  simp [UserService.healthHandler, wrapInflight, sampleExemplars,
    List.filterMap_append, List.filterMap_cons]

theorem post_health_exemplars (base : Ctx) (method : String) :
    sampleExemplars (PostService.healthHandler base method).events =
      [exemplarOf base, exemplarOf base] := by
  simp [PostService.healthHandler, wrapInflight, sampleExemplars,
    List.filterMap_append, List.filterMap_cons]

theorem user_error_exemplars (base : Ctx) (carrier : Carrier) (method : String) :
    sampleExemplars (UserService.errorHandler base carrier method).events =
      [exemplarOf (extractInto base carrier), exemplarOf (extractInto base carrier)] := by
  unfold UserService.errorHandler
  cases hr : (extractInto base carrier).recording <;>
    simp [wrapInflight, sampleExemplars, List.filterMap_append, List.filterMap_cons, hr]

theorem post_error_exemplars (base : Ctx) (carrier : Carrier) (method : String) :
    sampleExemplars (PostService.errorHandler base carrier method).events =
      [exemplarOf (extractInto base carrier), exemplarOf (extractInto base carrier)] := by
  unfold PostService.errorHandler
  cases hr : (extractInto base carrier).recording <;>
    simp [wrapInflight, sampleExemplars, List.filterMap_append, List.filterMap_cons, hr]

/-- C8: Exemplar presence — over every metric-recording site of both
services (the two get handlers, the by-user posts handler, and the health
and error handlers of each service) and any request context: every sample
recorded while a valid trace context is active in the recording context
carries that context's trace id as its exemplar (extracted context on the
read and error paths, fresh root context on the fallback path, the request
context's own span on the health path); every sample recorded with no
active or an invalid context carries no exemplar.  Each sample's exemplar
slot is a single `Option`, so a sample carries at most one exemplar, and an
absent exemplar is the plain value `none`, never an error. -/
theorem exemplar_presence (base : Ctx) (ftid fsid : Nat)
    (hft : ftid ≠ 0) (hfs : fsid ≠ 0)
    (req : GetReq) (preq : PostService.PostsReq) (method : String) :
    (∀ c : TraceContext, extract req.carrier = some c →
      (∀ x ∈ sampleExemplars (UserService.getUserHandler base ftid fsid req).events,
        x = some c.traceId) ∧
      (∀ x ∈ sampleExemplars (PostService.getPostHandler base ftid fsid req).events,
        x = some c.traceId) ∧
      (∀ x ∈ sampleExemplars (UserService.errorHandler base req.carrier method).events,
        x = some c.traceId) ∧
      (∀ x ∈ sampleExemplars (PostService.errorHandler base req.carrier method).events,
        x = some c.traceId)) ∧
    (∀ c : TraceContext, extract preq.carrier = some c →
      ∀ x ∈ sampleExemplars (PostService.getUserPostsHandler base ftid fsid preq).events,
        x = some c.traceId) ∧
    (∀ c : TraceContext, base.span = some c → c.isValid = true →
      (∀ x ∈ sampleExemplars (UserService.healthHandler base method).events,
        x = some c.traceId) ∧
      (∀ x ∈ sampleExemplars (PostService.healthHandler base method).events,
        x = some c.traceId)) ∧
    (base.spanCtxValid = false →
      (extract req.carrier = none →
        (∀ x ∈ sampleExemplars (UserService.getUserHandler base ftid fsid req).events,
          x = some ftid) ∧
        (∀ x ∈ sampleExemplars (PostService.getPostHandler base ftid fsid req).events,
          x = some ftid) ∧
        (∀ x ∈ sampleExemplars (UserService.errorHandler base req.carrier method).events,
          x = none) ∧
        (∀ x ∈ sampleExemplars (PostService.errorHandler base req.carrier method).events,
          x = none)) ∧
      (extract preq.carrier = none →
        ∀ x ∈ sampleExemplars (PostService.getUserPostsHandler base ftid fsid preq).events,
          x = some ftid) ∧
      (∀ x ∈ sampleExemplars (UserService.healthHandler base method).events, x = none) ∧
      (∀ x ∈ sampleExemplars (PostService.healthHandler base method).events, x = none)) := by
  have hvalid : TraceContext.isValid ⟨ftid, fsid, 1⟩ = true := by
    simp [TraceContext.isValid]
    exact ⟨hft, hfs⟩
  refine ⟨?_, ?_, ?_, ?_⟩
  · intro c hc
    have hv := extract_valid _ _ hc
    refine ⟨?_, ?_, ?_, ?_⟩
    · rw [user_get_exemplars, activeCtx_some base ftid fsid _ c hc,
        exemplarOf_valid { span := some c, recording := false } c rfl hv]
      intro x hx
      simp at hx
      exact hx
    · rw [post_get_exemplars, activeCtx_some base ftid fsid _ c hc,
        exemplarOf_valid { span := some c, recording := false } c rfl hv]
      intro x hx
      simp at hx
      exact hx
    · rw [user_error_exemplars, extractInto_some base _ c hc,
        exemplarOf_valid { span := some c, recording := false } c rfl hv]
      intro x hx
      simp at hx
      exact hx
    · rw [post_error_exemplars, extractInto_some base _ c hc,
        exemplarOf_valid { span := some c, recording := false } c rfl hv]
      intro x hx
      simp at hx
      exact hx
  · intro c hc
    have hv := extract_valid _ _ hc
    rw [post_posts_exemplars, activeCtx_some base ftid fsid _ c hc,
      exemplarOf_valid { span := some c, recording := false } c rfl hv]
    intro x hx
    simp at hx
    exact hx
  · intro c hs hv
    constructor
    · rw [user_health_exemplars, exemplarOf_valid base c hs hv]
      intro x hx
      simp at hx
      exact hx
    · rw [post_health_exemplars, exemplarOf_valid base c hs hv]
      intro x hx
      simp at hx
      exact hx
  · intro hbase
    refine ⟨?_, ?_, ?_, ?_⟩
    · intro hc
      refine ⟨?_, ?_, ?_, ?_⟩
      · rw [user_get_exemplars, activeCtx_invalid base ftid fsid _ hc hbase,
          exemplarOf_valid { span := some ⟨ftid, fsid, 1⟩, recording := true }
            ⟨ftid, fsid, 1⟩ rfl hvalid]
        intro x hx
        simp at hx
        exact hx
      · rw [post_get_exemplars, activeCtx_invalid base ftid fsid _ hc hbase,
          exemplarOf_valid { span := some ⟨ftid, fsid, 1⟩, recording := true }
            ⟨ftid, fsid, 1⟩ rfl hvalid]
        intro x hx
        simp at hx
        exact hx
      · rw [user_error_exemplars, extractInto_none base _ hc,
          exemplarOf_invalid base hbase]
        intro x hx
        simp at hx
        exact hx
      · rw [post_error_exemplars, extractInto_none base _ hc,
          exemplarOf_invalid base hbase]
        intro x hx
        simp at hx
        exact hx
    · intro hc
      rw [post_posts_exemplars, activeCtx_invalid base ftid fsid _ hc hbase,
        exemplarOf_valid { span := some ⟨ftid, fsid, 1⟩, recording := true }
          ⟨ftid, fsid, 1⟩ rfl hvalid]
      intro x hx
      simp at hx
      exact hx
    · rw [user_health_exemplars, exemplarOf_invalid base hbase]
      intro x hx
      simp at hx
      exact hx
    · rw [post_health_exemplars, exemplarOf_invalid base hbase]
      intro x hx
      simp at hx
      exact hx

/-- Witness for C8 at a concrete request with a valid injected context: the
first recorded sample of each service's get handler carries exemplar trace
id 3. -/
theorem exemplar_presence_witness :
    (sampleExemplars
        (UserService.getUserHandler Ctx.noSpan 7 9
          { carrier := inject ⟨3, 4, 1⟩ [], method := "GET", idParam := some "1",
            lookup := Lookup.found, encodeOk := true }).events).head! = some 3 ∧
    (sampleExemplars
        (PostService.getPostHandler Ctx.noSpan 7 9
          { carrier := inject ⟨3, 4, 1⟩ [], method := "GET", idParam := some "1",
            lookup := Lookup.found, encodeOk := true }).events).head! = some 3 :=
  ⟨((exemplar_presence Ctx.noSpan 7 9 (by norm_num) (by norm_num)
      { carrier := inject ⟨3, 4, 1⟩ [], method := "GET", idParam := some "1",
        lookup := Lookup.found, encodeOk := true }
      { carrier := [], method := "GET", userIdParam := none, queryOk := true,
        rowsSrc := { rows := [], breakAfter := none }, encodeOk := true } "GET").1
      ⟨3, 4, 1⟩
      (extract_inject ⟨3, 4, 1⟩ []
        (by unfold TraceContext.bounded; exact ⟨by norm_num, by norm_num, by norm_num⟩)
        (by norm_num) (by norm_num))).1 _ (by decide),
   ((exemplar_presence Ctx.noSpan 7 9 (by norm_num) (by norm_num)
      { carrier := inject ⟨3, 4, 1⟩ [], method := "GET", idParam := some "1",
        lookup := Lookup.found, encodeOk := true }
      { carrier := [], method := "GET", userIdParam := none, queryOk := true,
        rowsSrc := { rows := [], breakAfter := none }, encodeOk := true } "GET").1
      ⟨3, 4, 1⟩
      (extract_inject ⟨3, 4, 1⟩ []
        (by unfold TraceContext.bounded; exact ⟨by norm_num, by norm_num, by norm_num⟩)
        (by norm_num) (by norm_num))).2.1 _ (by decide)⟩

/-- C9: Deliberate-failure endpoint — every call responds with 500 on the
user service and 503 on the post service, and whenever a recording span is
active the handlers record an Error status with a non-empty description and
attach structured error attributes. -/
theorem deliberate_failure (base : Ctx) (carrier : Carrier) (method : String) :
    (UserService.errorHandler base carrier method).status = 500 ∧
    (PostService.errorHandler base carrier method).status = 503 ∧
    ((extractInto base carrier).recording = true →
      TEvent.recordErr "Intentional test error" ∈
        (UserService.errorHandler base carrier method).events ∧
      "Intentional test error" ≠ "" ∧
      TEvent.setAttrs [("http.response.status_code", "500"), ("error.type", "test_error")] ∈
        (UserService.errorHandler base carrier method).events ∧
      TEvent.recordErr "Database connection failed" ∈
        (PostService.errorHandler base carrier method).events ∧
      "Database connection failed" ≠ "" ∧
      TEvent.setAttrs [("http.response.status_code", "503"), ("error.type", "database_error")] ∈
        (PostService.errorHandler base carrier method).events) := by
  refine ⟨by simp [UserService.errorHandler], by simp [PostService.errorHandler], ?_⟩
  intro hrec
  refine ⟨?_, by decide, ?_, ?_, by decide, ?_⟩ <;>
    simp [UserService.errorHandler, PostService.errorHandler, hrec, wrapInflight]

/-- Witness for C9 with a recording span carried into the request. -/
theorem deliberate_failure_witness :
    TEvent.recordErr "Intentional test error" ∈
      (UserService.errorHandler { span := some ⟨1, 2, 1⟩, recording := true }
        [] "GET").events :=
  ((deliberate_failure { span := some ⟨1, 2, 1⟩, recording := true } [] "GET").2.2
    (by decide)).1

/-- The rows actually scanned into posts by a loop over all-`some` rows. -/
def somesOf : List PostService.ScanRow → List Post
  | [] => []
  | none :: rest => somesOf rest
  | some p :: rest => p :: somesOf rest

theorem scanLoop_all_some :
    ∀ (l : List PostService.ScanRow) (acc : List Post), (∀ x ∈ l, x ≠ none) →
      PostService.scanLoop l acc = some (acc ++ somesOf l) := by
  intro l
  induction l with
  | nil => intro acc _; simp [PostService.scanLoop, somesOf]
  | cons hd rest ih =>
    intro acc h
    cases hd with
    | none => exact absurd rfl (h none (by simp))
    | some p =>
      simp only [PostService.scanLoop, somesOf]
      rw [ih (acc ++ [p]) (fun x hx => h x (by simp [hx]))]
      simp

theorem somesOf_length :
    ∀ l : List PostService.ScanRow, (∀ x ∈ l, x ≠ none) →
      (somesOf l).length = l.length := by
  intro l
  induction l with
  | nil => intro _; rfl
  | cons hd rest ih =>
    intro h
    cases hd with
    | none => exact absurd rfl (h none (by simp))
    | some p =>
      simp only [somesOf, List.length_cons]
      rw [ih (fun x hx => h x (by simp [hx]))]

/-- C10: In `getUserPosts`, an error during row iteration after a successful
query is silently swallowed: `rows.Err()` is never checked, so the function
returns the partial list accumulated before the failure together with a nil
error, and `getUserPostsHandler` responds 200 with the truncated result,
even though the iterator would have reported an error. -/
theorem rows_err_swallowed (base : Ctx) (ftid fsid : Nat)
    (req : PostService.PostsReq) (k : Nat)
    (hid : ∃ s n, req.userIdParam = some s ∧ atoi? s = some n)
    (hq : req.queryOk = true)
    (hbrk : req.rowsSrc.breakAfter = some k)
    (hk : k < req.rowsSrc.rows.length)
    (hscan : ∀ x ∈ req.rowsSrc.rows.take k, x ≠ none)
    (henc : req.encodeOk = true) :
    PostService.getUserPosts true req.rowsSrc =
      some (somesOf (req.rowsSrc.rows.take k)) ∧
    req.rowsSrc.iterAborted = true ∧
    (PostService.getUserPostsHandler base ftid fsid req).status = 200 ∧
    (PostService.getUserPostsHandler base ftid fsid req).body =
      some (somesOf (req.rowsSrc.rows.take k)) ∧
    (somesOf (req.rowsSrc.rows.take k)).length < req.rowsSrc.rows.length := by
  obtain ⟨s, n, hI, hA⟩ := hid
  have hyield : req.rowsSrc.yielded = req.rowsSrc.rows.take k := by
    simp [PostService.RowsSrc.yielded, hbrk]
  have hget : PostService.getUserPosts true req.rowsSrc =
      some (somesOf (req.rowsSrc.rows.take k)) := by
    unfold PostService.getUserPosts
    rw [if_pos rfl, hyield]
    rw [scanLoop_all_some (req.rowsSrc.rows.take k) [] hscan]
    simp
  have hlen : (somesOf (req.rowsSrc.rows.take k)).length < req.rowsSrc.rows.length := by
    rw [somesOf_length _ hscan]
    rw [List.length_take]
    omega
  refine ⟨hget, by simp [PostService.RowsSrc.iterAborted, hbrk], ?_, ?_, hlen⟩
  · simp only [PostService.getUserPostsHandler, hI, hA, hq, hget, henc, if_true]
  · simp only [PostService.getUserPostsHandler, hI, hA, hq, hget, henc, if_true]

/-- Witness for C10: a two-row source whose iteration aborts after the first
row yields a 200 with only the first post. -/
theorem rows_err_swallowed_witness :
    (PostService.getUserPostsHandler Ctx.noSpan 7 9
      { carrier := [], method := "GET", userIdParam := some "1", queryOk := true,
        rowsSrc := { rows := [some ⟨1, 1, "a", "b", "c"⟩, some ⟨2, 1, "d", "e", "f"⟩],
                     breakAfter := some 1 },
        encodeOk := true }).status = 200 ∧
    (PostService.getUserPostsHandler Ctx.noSpan 7 9
      { carrier := [], method := "GET", userIdParam := some "1", queryOk := true,
        rowsSrc := { rows := [some ⟨1, 1, "a", "b", "c"⟩, some ⟨2, 1, "d", "e", "f"⟩],
                     breakAfter := some 1 },
        encodeOk := true }).body = some [⟨1, 1, "a", "b", "c"⟩] :=
  ⟨(rows_err_swallowed Ctx.noSpan 7 9
      { carrier := [], method := "GET", userIdParam := some "1", queryOk := true,
        rowsSrc := { rows := [some ⟨1, 1, "a", "b", "c"⟩, some ⟨2, 1, "d", "e", "f"⟩],
                     breakAfter := some 1 },
        encodeOk := true } 1
      ⟨"1", 1, rfl, by decide⟩ rfl rfl (by decide) (by decide) rfl).2.2.1,
   (rows_err_swallowed Ctx.noSpan 7 9
      { carrier := [], method := "GET", userIdParam := some "1", queryOk := true,
        rowsSrc := { rows := [some ⟨1, 1, "a", "b", "c"⟩, some ⟨2, 1, "d", "e", "f"⟩],
                     breakAfter := some 1 },
        encodeOk := true } 1
      ⟨"1", 1, rfl, by decide⟩ rfl rfl (by decide) (by decide) rfl).2.2.2.1⟩
